import Mathlib

/-!
Shallow embedding of `src/analyze-pdf-fonts.py`.

The script `analyze_pdf_fonts` runs two independent phases over one PDF
path: phase 1 opens the file with `open(pdf_path, 'rb')` inside a `with`
block and reads it with PyPDF2 (page count, metadata, first 500 characters
of page 0 text); phase 2 opens it with `pdfplumber.open(pdf_path)` inside
a `with` block (page count, first 300 characters of page 0 text, font
name/size sets sampled from the first 100 character records, and a 5-record
sample display).  Each phase is wrapped in `try/except Exception` that
prints the library name and the exception message and continues.

The two external libraries are modelled as data: an `Env` holds the result
of each library call (either a parsed document value, or the message of the
exception the call raised).  Console output is modelled as a `List Line` of
print events together with a `render` function giving the exact text each
print statement produces; the resource behaviour of the two `with` blocks
is modelled as a `List Ev` trace of open/close events.  Python floats are
modelled as exact rationals, and Python `round(x, 1)` as correctly rounded
half-to-even on ℚ (for all concrete inputs used below the two agree).
-/

/-- A pdfplumber character record (`page.chars` element).  The source reads
the three fields `text`, `fontname`, `size` with `'fontname' in char`,
`char.get('text', '')` etc., so each field is optional. -/
structure CharRec where
  text : Option String
  fontname : Option String
  size : Option ℚ
deriving DecidableEq

/-- The data PyPDF2 exposes on a parsed document: `pdf_reader.pages` is
modelled by the text `extract_text()` returns for each page, and
`pdf_reader.metadata` is a possibly absent key/value mapping
(`None` or an empty mapping is falsy at line 16 of the source). -/
structure PyPdfDoc where
  pages : List String
  metadata : Option (List (String × String))
deriving DecidableEq

/-- The data pdfplumber exposes on one page: `page.extract_text()`
(`None` or a string, with `""` falsy at line 44) and `page.chars`. -/
structure PlumberPage where
  textOpt : Option String
  chars : List CharRec
deriving DecidableEq

/-- The data pdfplumber exposes on a parsed document (`pdf.pages`). -/
structure PlumberDoc where
  pages : List PlumberPage
deriving DecidableEq

/-- The environment a run of the script observes: the outcome of
`open(pdf_path, 'rb')` (line 11), of `PyPDF2.PdfReader(file)` (line 12)
and of `pdfplumber.open(pdf_path)` (line 34).  `Except.error e` models the
call raising an exception whose message is `e`; a path that does not exist
makes both opens fail with a file-not-found message. -/
@[ext]
structure Env where
  openRb : Except String Unit
  parsePypdf : Except String PyPdfDoc
  openPlumber : Except String PlumberDoc

/-- One print event of the script.  `render` below gives the exact console
text of each event. -/
inductive Line where
  | analyzing (path : String)
  | numPages (n : Nat)
  | metadataHeader
  | metadataEntry (k v : String)
  | first500 (preview : String)
  | pypdfError (msg : String)
  | separator
  | plumberOpened
  | plumberNumPages (n : Nat)
  | textPreviewHeader
  | textPreview (preview : String)
  | uniqueFonts (fonts : List String)
  | fontSizes (sizes : List ℚ)
  | sampleHeader
  | sampleChar (i : Nat) (text fontname size : String)
  | plumberError (msg : String)
deriving DecidableEq

/-- Resource events of the two `with` blocks: open/close of the phase-1
binary file handle (line 11) and of the phase-2 pdfplumber document
(line 34). -/
inductive Ev where
  | fopen
  | fclose
  | popen
  | pclose
deriving DecidableEq

/-- Python string slicing `s[:n]`: the first `n` characters of `s`,
or all of `s` when it is shorter. -/
def strTake (s : String) (n : Nat) : String :=
  (s.toList.take n).asString

/-- Correctly rounded half-to-even integer rounding on ℚ, the tie-breaking
rule of Python `round`. -/
def roundHalfEven (x : ℚ) : ℤ :=
  if x - ⌊x⌋ < 1 / 2 then ⌊x⌋
  else if 1 / 2 < x - ⌊x⌋ then ⌊x⌋ + 1
  else if ⌊x⌋ % 2 = 0 then ⌊x⌋ else ⌊x⌋ + 1

/-- Python `round(x, 1)` (line 59 of the source): round to the nearest
multiple of 1/10, ties to even. -/
def pyRound1 (x : ℚ) : ℚ :=
  (roundHalfEven (10 * x) : ℚ) / 10

/-- `set.add`: membership-checked insertion, modelling a Python set as the
list of its elements in insertion order. -/
def insertNew {α : Type} [DecidableEq α] (s : List α) (a : α) : List α :=
  if a ∈ s then s else s ++ [a]

/-- The loop of lines 55-59: for each sampled character record, add the
`fontname` field (when present) to the font set and the rounded `size`
field (when present) to the size set. -/
def collectFontsAux : List CharRec → List String → List ℚ → List String × List ℚ
  | [], fonts, sizes => (fonts, sizes)
  | c :: cs, fonts, sizes =>
    collectFontsAux cs
      (match c.fontname with
        | some f => insertNew fonts f
        | none => fonts)
      (match c.size with
        | some s => insertNew sizes (pyRound1 s)
        | none => sizes)

/-- Lines 52-59: the two sets built from `chars[:100]`. -/
def collectFonts (chars : List CharRec) : List String × List ℚ :=
  collectFontsAux (chars.take 100) [] []

/-- Python `sorted(font_sizes)` (line 62): ascending numeric order. -/
def sortedSizes (l : List ℚ) : List ℚ :=
  List.insertionSort (fun a b => a ≤ b) l

/-- Rendering of `char.get('size', 'N/A')` in line 67: the size value when
present, the literal `N/A` otherwise (numeric formatting abstracted by the
ℚ `toString`). -/
def sizeStr : Option ℚ → String
  | some q => toString q
  | none => "N/A"

/-- The loop of lines 66-67: `for i, char in enumerate(chars[:5])`,
with `i` starting at the given offset. -/
def sampleLinesAux (i : Nat) : List CharRec → List Line
  | [] => []
  | c :: cs =>
    Line.sampleChar i (Option.getD c.text "") (Option.getD c.fontname "N/A")
      (sizeStr c.size) :: sampleLinesAux (i + 1) cs

/-- Lines 65-67: the sample display of the first 5 character records. -/
def sampleLines (chars : List CharRec) : List Line :=
  sampleLinesAux 0 (chars.take 5)

/-- Lines 16-19: metadata block, printed only when the metadata mapping is
present and non-empty (Python truthiness of `pdf_reader.metadata`). -/
def metaLines : Option (List (String × String)) → List Line
  | none => []
  | some md =>
    if md.isEmpty then []
    else Line.metadataHeader :: md.map (fun kv => Line.metadataEntry kv.1 kv.2)

/-- Lines 22-25: if at least one page exists, print the first 500
characters of the first page's text. -/
def textLines500 : List String → List Line
  | [] => []
  | t :: _ => [Line.first500 (strTake t 500)]

/-- Lines 43-46: print the first 300 characters of the extracted text when
it is truthy (`None` and `""` are both skipped silently). -/
def textLines300 : Option String → List Line
  | none => []
  | some t =>
    if t = "" then []
    else [Line.textPreviewHeader, Line.textPreview (strTake t 300)]

/-- Lines 48-67: when `page.chars` is non-empty, print the font set, the
sorted size set, and the 5-record sample. -/
def charLines : List CharRec → List Line
  | [] => []
  | c :: cs =>
    Line.uniqueFonts (collectFonts (c :: cs)).1 ::
    Line.fontSizes (sortedSizes (collectFonts (c :: cs)).2) ::
    Line.sampleHeader :: sampleLines (c :: cs)

/-- Lines 39-67: the per-first-page part of phase 2. -/
def firstPageLines : List PlumberPage → List Line
  | [] => []
  | p :: _ => textLines300 p.textOpt ++ charLines p.chars

/-- Lines 12-25: body of phase 1 once the reader is constructed. -/
def phase1Body (d : PyPdfDoc) : List Line :=
  Line.numPages d.pages.length :: (metaLines d.metadata ++ textLines500 d.pages)

/-- Lines 35-67: body of phase 2 once the pdfplumber document is open. -/
def phase2Body (doc : PlumberDoc) : List Line :=
  Line.plumberOpened :: Line.plumberNumPages doc.pages.length ::
    firstPageLines doc.pages

/-- Lines 9-28: the whole phase-1 `try` block.  Any exception raised by the
open or the parse is caught and printed as `PyPDF2 error: <msg>`. -/
def phase1Lines (env : Env) : List Line :=
  match env.openRb with
  | Except.error e => [Line.pypdfError e]
  | Except.ok _ =>
    match env.parsePypdf with
    | Except.error e => [Line.pypdfError e]
    | Except.ok d => phase1Body d

/-- Lines 32-70: the whole phase-2 `try` block.  Any exception raised by
`pdfplumber.open` is caught and printed as `pdfplumber error: <msg>`. -/
def phase2Lines (env : Env) : List Line :=
  match env.openPlumber with
  | Except.error e => [Line.plumberError e]
  | Except.ok doc => phase2Body doc

/-- Resource trace of the phase-1 `with open(pdf_path, 'rb') as file:`
block: when the open succeeds the handle is closed on every exit path of
the block, also when `PyPDF2.PdfReader` or the body raises; when the open
itself raises, no handle was acquired. -/
def phase1Trace (env : Env) : List Ev :=
  match env.openRb with
  | Except.error _ => []
  | Except.ok _ => [Ev.fopen, Ev.fclose]

/-- Resource trace of the phase-2 `with pdfplumber.open(pdf_path) as pdf:`
block, with the same scoped discipline. -/
def phase2Trace (env : Env) : List Ev :=
  match env.openPlumber with
  | Except.error _ => []
  | Except.ok _ => [Ev.popen, Ev.pclose]

/-- Lines 6-70, `analyze_pdf_fonts(pdf_path)`: header print, phase 1,
separator print, phase 2.  The function is total: both phases catch every
modelled exception, so a run always returns its print list (the process
exits normally with status 0) together with its resource trace. -/
def analyze_pdf_fonts (env : Env) (pdf_path : String) : List Ev × List Line :=
  (phase1Trace env ++ phase2Trace env,
   Line.analyzing pdf_path :: (phase1Lines env ++ Line.separator :: phase2Lines env))

/-- The print-event list of a run. -/
def outLines (env : Env) (pdf_path : String) : List Line :=
  (analyze_pdf_fonts env pdf_path).2

/-- Exact console text of each print event, matching the f-strings of the
source (the rendering of the Python set / list displays of lines 61-62 and
of numeric values is abstracted by `toString`). -/
def render : Line → String
  | Line.analyzing p => "Analyzing PDF: " ++ (p ++ "\n")
  | Line.numPages n => "Number of pages: " ++ toString n
  | Line.metadataHeader => "\nPDF Metadata:"
  | Line.metadataEntry k v => "  " ++ (k ++ (": " ++ v))
  | Line.first500 t => "\nFirst 500 characters of text:\n" ++ (t ++ "...")
  | Line.pypdfError e => "PyPDF2 error: " ++ e
  | Line.separator => "\n" ++ (String.mk (List.replicate 50 (Char.ofNat 61)) ++ "\n")
  | Line.plumberOpened => "PDF opened with pdfplumber"
  | Line.plumberNumPages n => "Number of pages: " ++ toString n
  | Line.textPreviewHeader => "\nExtracted text preview (first 300 chars):"
  | Line.textPreview t => t ++ "..."
  | Line.uniqueFonts fs => "\nUnique fonts found: " ++ toString fs
  | Line.fontSizes ss => "Font sizes found: " ++ toString ss
  | Line.sampleHeader => "\nSample character details (first 5):"
  | Line.sampleChar i t f s =>
    "  Char " ++ (toString i ++ (": \x27" ++ (t ++ ("\x27 - Font: " ++ (f ++ (" - Size: " ++ s))))))
  | Line.plumberError e => "pdfplumber error: " ++ e

/-- The console text of a run, one entry per executed print statement. -/
def console (env : Env) (pdf_path : String) : List String :=
  (outLines env pdf_path).map render

/-- `s` contains `sub` as a contiguous substring. -/
def containsStr (s sub : String) : Prop :=
  ∃ a b, s = a ++ (sub ++ b)

/-- One page of an abstract well-formed PDF file, carrying the data each of
the two libraries would extract from it: the text PyPDF2 returns, the text
pdfplumber returns, and the character records pdfplumber returns. -/
structure PdfPage where
  pypdfText : String
  plumberText : Option String
  chars : List CharRec

/-- An abstract well-formed PDF file, used to express that the two phases
read the same input: both library views below are derived from one value of
this type. -/
structure PdfFile where
  pages : List PdfPage
  metadata : Option (List (String × String))

/-- What PyPDF2 reports when it parses the file successfully: one entry per
page of the file. -/
def pypdfView (f : PdfFile) : PyPdfDoc :=
  ⟨f.pages.map (fun p => p.pypdfText), f.metadata⟩

/-- What pdfplumber reports when it parses the file successfully: one entry
per page of the file. -/
def plumberView (f : PdfFile) : PlumberDoc :=
  ⟨f.pages.map (fun p => PlumberPage.mk p.plumberText p.chars)⟩

/-- The environment of a run in which both libraries successfully parse the
same file. -/
def envOfFile (f : PdfFile) : Env :=
  ⟨Except.ok (), Except.ok (pypdfView f), Except.ok (plumberView f)⟩

/-- A concrete character record: glyph `H` in 12pt Helvetica. -/
def helloChar : CharRec :=
  ⟨some "H", some "Helvetica", some 12⟩

/-- A concrete single-page document as PyPDF2 sees it. -/
def helloPyDoc : PyPdfDoc :=
  ⟨["Hello World"], none⟩

/-- A concrete single-page document as pdfplumber sees it. -/
def helloPlumberDoc : PlumberDoc :=
  ⟨[⟨some "Hello World", [helloChar]⟩]⟩

/-- A run in which both libraries parse the concrete document. -/
def helloEnv : Env :=
  ⟨Except.ok (), Except.ok helloPyDoc, Except.ok helloPlumberDoc⟩

/-- A run on a path that does not exist: both opens raise. -/
def missingEnv : Env :=
  ⟨Except.error "No such file or directory: good-fonts.pdf",
   Except.error "No such file or directory: good-fonts.pdf",
   Except.error "No such file or directory: good-fonts.pdf"⟩

/-- A run in which the phase-1 open succeeds but `PyPDF2.PdfReader` raises
inside the `with` block. -/
def corruptEnv : Env :=
  ⟨Except.ok (), Except.error "EOF marker not found", Except.ok helloPlumberDoc⟩

/-- A run on a PDF whose first page yields no extractable text in either
library. -/
def emptyTextEnv : Env :=
  ⟨Except.ok (), Except.ok ⟨[""], none⟩, Except.ok ⟨[⟨none, []⟩]⟩⟩

/-- The concrete file behind `helloEnv`, for the phase-agreement claim. -/
def helloFile : PdfFile :=
  ⟨[⟨"Hello World", some "Hello World", [helloChar]⟩], none⟩

/-- Membership in a set after `set.add`. -/
theorem mem_insertNew {α : Type} [DecidableEq α] (s : List α) (a x : α) :
    x ∈ insertNew s a ↔ x ∈ s ∨ x = a := by
  unfold insertNew
  split
  · rename_i h
    constructor
    · exact fun hx => Or.inl hx
    · rintro (hx | rfl)
      · exact hx
      · exact h
  · simp [List.mem_append]

/-- `set.add` keeps the element list duplicate-free. -/
theorem nodup_insertNew {α : Type} [DecidableEq α] {s : List α} (a : α)
    (h : s.Nodup) : (insertNew s a).Nodup := by
  unfold insertNew
  split
  · exact h
  · rename_i ha
    rw [List.nodup_append]
    refine ⟨h, List.nodup_singleton a, ?_⟩
    intro x hx hxa
    rw [List.mem_singleton] at hxa
    exact ha (hxa ▸ hx)

/-- Rounding an integer-valued rational is the identity. -/
theorem roundHalfEven_intCast (n : ℤ) : roundHalfEven (n : ℚ) = n := by
  unfold roundHalfEven
  rw [Int.floor_intCast, sub_self]
  norm_num

/-- `round(x, 1)` is idempotent: a value already on the 1-decimal grid is
left unchanged. -/
theorem pyRound1_idem (x : ℚ) : pyRound1 (pyRound1 x) = pyRound1 x := by
  unfold pyRound1
  rw [show (10 : ℚ) * ((roundHalfEven (10 * x) : ℚ) / 10) = (roundHalfEven (10 * x) : ℚ) by
    ring]
  rw [roundHalfEven_intCast]

/-- Invariant of the collection loop: starting from duplicate-free
accumulators whose sizes are all rounded values, both resulting sets are
duplicate-free and every collected size is a rounded value. -/
theorem collectFontsAux_inv (cs : List CharRec) :
    ∀ (fonts : List String) (sizes : List ℚ), fonts.Nodup → sizes.Nodup →
      (∀ x ∈ sizes, pyRound1 x = x) →
      (collectFontsAux cs fonts sizes).1.Nodup ∧
      (collectFontsAux cs fonts sizes).2.Nodup ∧
      ∀ x ∈ (collectFontsAux cs fonts sizes).2, pyRound1 x = x := by
  induction cs with
  | nil => exact fun fonts sizes hf hs hr => ⟨hf, hs, hr⟩
  | cons c cs ih =>
    intro fonts sizes hf hs hr
    rw [collectFontsAux]
    apply ih
    · cases c.fontname with
      | none => exact hf
      | some f => exact nodup_insertNew f hf
    · cases c.size with
      | none => exact hs
      | some s => exact nodup_insertNew (pyRound1 s) hs
    · cases c.size with
      | none => exact hr
      | some s =>
        intro x hx
        rcases (mem_insertNew sizes (pyRound1 s) x).mp hx with hx | rfl
        · exact hr x hx
        · exact pyRound1_idem s

/-- Both sets built by phase 2 are duplicate-free, and every member of the
size set is a 1-decimal rounded value. -/
theorem collectFonts_inv (chars : List CharRec) :
    (collectFonts chars).1.Nodup ∧ (collectFonts chars).2.Nodup ∧
    ∀ x ∈ (collectFonts chars).2, pyRound1 x = x :=
  collectFontsAux_inv (chars.take 100) [] [] List.nodup_nil List.nodup_nil
    (by intro x hx; cases hx)

/-- Every line of the sample display is a `sampleChar` line. -/
theorem mem_sampleLinesAux {x : Line} :
    ∀ (j : Nat) (cs : List CharRec), x ∈ sampleLinesAux j cs →
      ∃ i t f s, x = Line.sampleChar i t f s := by
  intro j cs
  induction cs generalizing j with
  | nil => intro h; cases h
  | cons c cs ih =>
    intro h
    rw [sampleLinesAux] at h
    rcases List.mem_cons.mp h with h | h
    · exact ⟨j, _, _, _, h⟩
    · exact ih (j + 1) h

/-- The sample display has one line per sampled record. -/
theorem length_sampleLinesAux : ∀ (j : Nat) (cs : List CharRec),
    (sampleLinesAux j cs).length = cs.length := by
  intro j cs
  induction cs generalizing j with
  | nil => rfl
  | cons c cs ih => rw [sampleLinesAux, List.length_cons, List.length_cons, ih]

/-- The record at position `i` is displayed with index `j + i` when the
sample loop starts counting at `j`. -/
theorem sampleLinesAux_mem_of_getElem (cs : List CharRec) :
    ∀ (j i : Nat) (c : CharRec), cs[i]? = some c →
      Line.sampleChar (j + i) (Option.getD c.text "") (Option.getD c.fontname "N/A")
        (sizeStr c.size) ∈ sampleLinesAux j cs := by
  induction cs with
  | nil => intro j i c h; simp at h
  | cons a cs ih =>
    intro j i c h
    cases i with
    | zero =>
      rw [List.getElem?_cons_zero] at h
      cases h
      rw [sampleLinesAux]
      exact List.mem_cons_self _ _
    | succ i =>
      rw [List.getElem?_cons_succ] at h
      rw [sampleLinesAux]
      refine List.mem_cons_of_mem _ ?_
      have := ih (j + 1) i c h
      rwa [show j + (i + 1) = j + 1 + i by omega]

/-- Python slicing `s[:n]` returns all of `s` when `s` has at most `n`
characters. -/
theorem strTake_of_length_le (s : String) (n : Nat) (h : s.length ≤ n) :
    strTake s n = s := by
  unfold strTake
  rw [List.take_of_length_le]
  · cases s
    rfl
  · exact h

/-- The sorted size display is ascending. -/
theorem sortedSizes_sorted (l : List ℚ) :
    (sortedSizes l).Sorted (fun a b => a ≤ b) :=
  List.sorted_insertionSort _ l

/-- Sorting is insensitive to the order in which the sizes were collected. -/
theorem sortedSizes_perm_eq {l1 l2 : List ℚ} (h : l1.Perm l2) :
    sortedSizes l1 = sortedSizes l2 :=
  List.eq_of_perm_of_sorted
    ((List.perm_insertionSort _ l1).trans (h.trans (List.perm_insertionSort _ l2).symm))
    (List.sorted_insertionSort _ l1) (List.sorted_insertionSort _ l2)

/-- Every metadata-block line is the header or an entry line. -/
theorem mem_metaLines_shape {x : Line} {md : Option (List (String × String))}
    (h : x ∈ metaLines md) :
    x = Line.metadataHeader ∨ ∃ k v, x = Line.metadataEntry k v := by
  cases md with
  | none => cases h
  | some m =>
    rw [metaLines] at h
    split at h
    · cases h
    · rcases List.mem_cons.mp h with h | h
      · exact Or.inl h
      · rcases List.mem_map.mp h with ⟨kv, hkv, rfl⟩
        exact Or.inr ⟨kv.1, kv.2, rfl⟩

/-- Classification of every print event a run can emit, with the
provenance of the data-carrying events. -/
theorem mem_outLines_shape {env : Env} {path : String} {x : Line}
    (h : x ∈ outLines env path) :
    x = Line.analyzing path ∨
    (∃ e, x = Line.pypdfError e) ∨
    (∃ d, env.parsePypdf = Except.ok d ∧ x = Line.numPages d.pages.length) ∨
    x = Line.metadataHeader ∨
    (∃ k v, x = Line.metadataEntry k v) ∨
    (∃ d t ts, env.parsePypdf = Except.ok d ∧ d.pages = t :: ts ∧
      x = Line.first500 (strTake t 500)) ∨
    x = Line.separator ∨
    (∃ e, x = Line.plumberError e) ∨
    x = Line.plumberOpened ∨
    (∃ doc, env.openPlumber = Except.ok doc ∧
      x = Line.plumberNumPages doc.pages.length) ∨
    (∃ doc p ps t, env.openPlumber = Except.ok doc ∧ doc.pages = p :: ps ∧
      p.textOpt = some t ∧ t ≠ "" ∧
      (x = Line.textPreviewHeader ∨ x = Line.textPreview (strTake t 300))) ∨
    (∃ doc p ps, env.openPlumber = Except.ok doc ∧ doc.pages = p :: ps ∧
      (x = Line.uniqueFonts (collectFonts p.chars).1 ∨
       x = Line.fontSizes (sortedSizes (collectFonts p.chars).2))) ∨
    x = Line.sampleHeader ∨
    (∃ i t f s, x = Line.sampleChar i t f s) := by
  obtain ⟨o, pp, pl⟩ := env
  rw [outLines, analyze_pdf_fonts] at h
  rcases List.mem_cons.mp h with h | h
  · exact Or.inl h
  rcases List.mem_append.mp h with h | h
  · -- phase 1
    simp only [phase1Lines] at h
    cases o with
    | error e =>
      rcases List.mem_singleton.mp h with rfl
      exact Or.inr (Or.inl ⟨e, rfl⟩)
    | ok u =>
      cases pp with
      | error e =>
        rcases List.mem_singleton.mp h with rfl
        exact Or.inr (Or.inl ⟨e, rfl⟩)
      | ok d =>
        unfold phase1Body at h
        rcases List.mem_cons.mp h with h | h
        · exact Or.inr (Or.inr (Or.inl ⟨d, rfl, h⟩))
        rcases List.mem_append.mp h with h | h
        · rcases mem_metaLines_shape h with h | h
          · exact Or.inr (Or.inr (Or.inr (Or.inl h)))
          · exact Or.inr (Or.inr (Or.inr (Or.inr (Or.inl h))))
        · cases hp : d.pages with
          | nil => rw [hp, textLines500] at h; cases h
          | cons t ts =>
            rw [hp, textLines500] at h
            rcases List.mem_singleton.mp h with rfl
            exact Or.inr (Or.inr (Or.inr (Or.inr (Or.inr (Or.inl
              ⟨d, t, ts, rfl, hp, rfl⟩)))))
  rcases List.mem_cons.mp h with h | h
  · exact Or.inr (Or.inr (Or.inr (Or.inr (Or.inr (Or.inr (Or.inl h))))))
  -- phase 2
  simp only [phase2Lines] at h
  cases pl with
  | error e =>
    rcases List.mem_singleton.mp h with rfl
    refine Or.inr (Or.inr (Or.inr (Or.inr (Or.inr (Or.inr (Or.inr (Or.inl ⟨e, rfl⟩)))))))
  | ok doc =>
    unfold phase2Body at h
    rcases List.mem_cons.mp h with h | h
    · exact Or.inr (Or.inr (Or.inr (Or.inr (Or.inr (Or.inr (Or.inr (Or.inr (Or.inl h))))))))
    rcases List.mem_cons.mp h with h | h
    · exact Or.inr (Or.inr (Or.inr (Or.inr (Or.inr (Or.inr (Or.inr (Or.inr (Or.inr (Or.inl
        ⟨doc, rfl, h⟩)))))))))
    cases hp : doc.pages with
    | nil => rw [hp, firstPageLines] at h; cases h
    | cons p ps =>
      rw [hp, firstPageLines] at h
      rcases List.mem_append.mp h with h | h
      · -- text preview lines
        cases ht : p.textOpt with
        | none => rw [ht, textLines300] at h; cases h
        | some t =>
          rw [ht, textLines300] at h
          split at h
          · cases h
          · rename_i hne
            rcases List.mem_cons.mp h with h | h
            · exact Or.inr (Or.inr (Or.inr (Or.inr (Or.inr (Or.inr (Or.inr (Or.inr (Or.inr
                (Or.inr (Or.inl ⟨doc, p, ps, t, rfl, hp, ht, hne, Or.inl h⟩))))))))))
            · rcases List.mem_singleton.mp h with rfl
              exact Or.inr (Or.inr (Or.inr (Or.inr (Or.inr (Or.inr (Or.inr (Or.inr (Or.inr
                (Or.inr (Or.inl ⟨doc, p, ps, t, rfl, hp, ht, hne, Or.inr rfl⟩))))))))))
      · -- font/size/sample lines
        cases hc : p.chars with
        | nil => rw [hc, charLines] at h; cases h
        | cons c cs =>
          rw [hc, charLines] at h
          rcases List.mem_cons.mp h with h | h
          · exact Or.inr (Or.inr (Or.inr (Or.inr (Or.inr (Or.inr (Or.inr (Or.inr (Or.inr
              (Or.inr (Or.inr (Or.inl ⟨doc, p, ps, rfl, hp, Or.inl (by rw [h, hc])⟩)))))))))))
          rcases List.mem_cons.mp h with h | h
          · exact Or.inr (Or.inr (Or.inr (Or.inr (Or.inr (Or.inr (Or.inr (Or.inr (Or.inr
              (Or.inr (Or.inr (Or.inl ⟨doc, p, ps, rfl, hp, Or.inr (by rw [h, hc])⟩)))))))))))
          rcases List.mem_cons.mp h with h | h
          · exact Or.inr (Or.inr (Or.inr (Or.inr (Or.inr (Or.inr (Or.inr (Or.inr (Or.inr
              (Or.inr (Or.inr (Or.inr (Or.inl h))))))))))))
          · rw [sampleLines] at h
            exact Or.inr (Or.inr (Or.inr (Or.inr (Or.inr (Or.inr (Or.inr (Or.inr (Or.inr
              (Or.inr (Or.inr (Or.inr (Or.inr (mem_sampleLinesAux _ _ h)))))))))))))

/-- C1: for an input path that does not exist, both library opens raise; the
run then prints exactly the header, a phase-1 message containing
`PyPDF2 error`, the separator, and a phase-2 message containing
`pdfplumber error`.  Both phases are attempted regardless of the failure of
the other, and `analyze_pdf_fonts` still returns its output normally (the
exception is never propagated: the function is total and its result below
is a plain value). -/
theorem C1_missing_path (env : Env) (path e1 e2 : String)
    (h1 : env.openRb = Except.error e1) (h2 : env.openPlumber = Except.error e2) :
    outLines env path =
      [Line.analyzing path, Line.pypdfError e1, Line.separator, Line.plumberError e2] ∧
    containsStr (render (Line.pypdfError e1)) "PyPDF2 error" ∧
    containsStr (render (Line.plumberError e2)) "pdfplumber error" := by
  refine ⟨?_, ⟨"", ": " ++ e1, rfl⟩, ⟨"", ": " ++ e2, rfl⟩⟩
  unfold outLines analyze_pdf_fonts phase1Lines phase2Lines
  rw [h1, h2]
  rfl

/-- Witness for C1 at the concrete missing-file run. -/
theorem C1_missing_path_witness :
    outLines missingEnv "good-fonts.pdf" =
      [Line.analyzing "good-fonts.pdf",
       Line.pypdfError "No such file or directory: good-fonts.pdf",
       Line.separator,
       Line.plumberError "No such file or directory: good-fonts.pdf"] ∧
    containsStr (render (Line.pypdfError "No such file or directory: good-fonts.pdf"))
      "PyPDF2 error" ∧
    containsStr (render (Line.plumberError "No such file or directory: good-fonts.pdf"))
      "pdfplumber error" :=
  C1_missing_path missingEnv "good-fonts.pdf" _ _ rfl rfl

/-- C3 counterexample: the claim says the phase-1 file handle is NOT
acquired via a scope and is left to process/garbage lifecycle, i.e. the
run itself never emits a phase-1 close.  In the source (line 11) the handle
is opened with `with open(pdf_path, 'rb') as file:`, so the close event is
in the trace of every run whose open succeeds — here a concrete run whose
phase-1 body raises inside the scope (`PdfReader` fails) and whose trace
nevertheless closes the phase-1 handle. -/
theorem C3_counterexample :
    corruptEnv.parsePypdf = Except.error "EOF marker not found" ∧
    Ev.fclose ∈ (analyze_pdf_fonts corruptEnv "good-fonts.pdf").1 := by
  constructor
  · rfl
  · decide

/-- C3 amended: BOTH handles are acquired via scopes that guarantee release
on every exit path: whenever the phase-1 open succeeds its trace is
open-then-close regardless of the outcome of `PyPDF2.PdfReader` (which
raises inside the scope in the witness run), and likewise whenever the
phase-2 open succeeds its trace is open-then-close. -/
theorem C3_both_scoped (env : Env)
    (h1 : ∃ u, env.openRb = Except.ok u)
    (h2 : ∃ doc, env.openPlumber = Except.ok doc) :
    phase1Trace env = [Ev.fopen, Ev.fclose] ∧
    phase2Trace env = [Ev.popen, Ev.pclose] ∧
    (∀ e, phase1Trace { env with parsePypdf := Except.error e } =
      [Ev.fopen, Ev.fclose]) := by
  obtain ⟨u, h1⟩ := h1
  obtain ⟨doc, h2⟩ := h2
  refine ⟨?_, ?_, ?_⟩
  · unfold phase1Trace
    rw [h1]
  · unfold phase2Trace
    rw [h2]
  · intro e
    unfold phase1Trace
    rw [show ({ env with parsePypdf := Except.error e } : Env).openRb = env.openRb from rfl]
    rw [h1]

/-- Witness for the amended C3 at the run whose phase-1 body raises. -/
theorem C3_both_scoped_witness :
    phase1Trace corruptEnv = [Ev.fopen, Ev.fclose] ∧
    phase2Trace corruptEnv = [Ev.popen, Ev.pclose] ∧
    (∀ e, phase1Trace { corruptEnv with parsePypdf := Except.error e } =
      [Ev.fopen, Ev.fclose]) :=
  C3_both_scoped corruptEnv ⟨(), rfl⟩ ⟨helloPlumberDoc, rfl⟩

/-- C10: the run is deterministic — two runs on the same path in which the
libraries return the same outcomes produce the same events, the same
traces, and (since the model renders the collected sets as a function of
their contents) identical console text. -/
theorem C10_deterministic (env1 env2 : Env) (path : String)
    (h1 : env1.openRb = env2.openRb)
    (h2 : env1.parsePypdf = env2.parsePypdf)
    (h3 : env1.openPlumber = env2.openPlumber) :
    analyze_pdf_fonts env1 path = analyze_pdf_fonts env2 path ∧
    console env1 path = console env2 path := by
  have h : env1 = env2 := Env.ext h1 h2 h3
  rw [h]
  exact ⟨rfl, rfl⟩

/-- Witness for C10: two structurally distinct environment values carrying
the same library outcomes. -/
theorem C10_deterministic_witness :
    analyze_pdf_fonts helloEnv "good-fonts.pdf" =
      analyze_pdf_fonts ⟨Except.ok (), Except.ok helloPyDoc, Except.ok helloPlumberDoc⟩
        "good-fonts.pdf" ∧
    console helloEnv "good-fonts.pdf" =
      console ⟨Except.ok (), Except.ok helloPyDoc, Except.ok helloPlumberDoc⟩
        "good-fonts.pdf" :=
  C10_deterministic helloEnv ⟨Except.ok (), Except.ok helloPyDoc, Except.ok helloPlumberDoc⟩
    "good-fonts.pdf" rfl rfl rfl

/-- C4 counterexample: the claim illustrates the rounding collapse with the
inputs 10.04 and 10.06 and asserts they yield the single member 10.0; in
fact `round(10.06, 1)` is 10.1 (10.06 is nearer 10.1 than 10.0, so no
tie-breaking is involved and the exact model agrees with Python floats
here), so processing records of sizes 10.04 and 10.06 yields a two-element
size set, not the single member 10.0. -/
theorem C4_counterexample :
    (collectFonts [⟨none, none, some (1004 / 100)⟩, ⟨none, none, some (1006 / 100)⟩]).2 =
      [10, 101 / 10] ∧
    (collectFonts [⟨none, none, some (1004 / 100)⟩, ⟨none, none, some (1006 / 100)⟩]).2 ≠
      [10] := by
  have h : (collectFonts [⟨none, none, some (1004 / 100)⟩,
      ⟨none, none, some (1006 / 100)⟩]).2 = [10, 101 / 10] := by
    norm_num [collectFonts, collectFontsAux, insertNew, pyRound1, roundHalfEven]
  refine ⟨h, ?_⟩
  rw [h]
  intro hc
  have hlen := congrArg List.length hc
  simp at hlen

/-- C4 amended: the font-name set contains each distinct name at most once
and the font-size set never contains two values that round to the same
one-decimal-place number — every size is rounded before insertion, so sizes
rounding to the same one-decimal value (e.g., 10.01 and 10.04) collapse to
the single member 10.0. -/
theorem C4_rounded_sets (chars : List CharRec) (x y : ℚ)
    (hx : x ∈ (collectFonts chars).2) (hy : y ∈ (collectFonts chars).2)
    (hxy : pyRound1 x = pyRound1 y) :
    (collectFonts chars).1.Nodup ∧ (collectFonts chars).2.Nodup ∧ x = y ∧
    (collectFonts [⟨none, none, some (1001 / 100)⟩, ⟨none, none, some (1004 / 100)⟩]).2 =
      [10] := by
  obtain ⟨hf, hs, hr⟩ := collectFonts_inv chars
  refine ⟨hf, hs, ?_, ?_⟩
  · rw [← hr x hx, ← hr y hy, hxy]
  · norm_num [collectFonts, collectFontsAux, insertNew, pyRound1, roundHalfEven]

/-- Witness for the amended C4 at a concrete record list. -/
theorem C4_rounded_sets_witness :
    (10 : ℚ) ∈ (collectFonts [⟨none, none, some (1001 / 100)⟩,
        ⟨none, none, some (1004 / 100)⟩]).2 ∧
    ((collectFonts [⟨none, none, some (1001 / 100)⟩,
        ⟨none, none, some (1004 / 100)⟩]).1.Nodup ∧
     (collectFonts [⟨none, none, some (1001 / 100)⟩,
        ⟨none, none, some (1004 / 100)⟩]).2.Nodup ∧
     (10 : ℚ) = 10 ∧
     (collectFonts [⟨none, none, some (1001 / 100)⟩, ⟨none, none, some (1004 / 100)⟩]).2 =
       [10]) := by
  have hmem : (10 : ℚ) ∈ (collectFonts [⟨none, none, some (1001 / 100)⟩,
      ⟨none, none, some (1004 / 100)⟩]).2 := by
    have h : (collectFonts [⟨none, none, some (1001 / 100)⟩,
        ⟨none, none, some (1004 / 100)⟩]).2 = [10] := by
      norm_num [collectFonts, collectFontsAux, insertNew, pyRound1, roundHalfEven]
    rw [h]
    exact List.mem_singleton_self 10
  exact ⟨hmem, C4_rounded_sets _ 10 10 hmem hmem rfl⟩

/-- Every phase-1 print is part of the run's output. -/
theorem mem_out_of_mem_phase1 {env : Env} {path : String} {x : Line}
    (h : x ∈ phase1Lines env) : x ∈ outLines env path := by
  unfold outLines analyze_pdf_fonts
  exact List.mem_cons_of_mem _ (List.mem_append_left _ h)

/-- Every phase-2 print is part of the run's output. -/
theorem mem_out_of_mem_phase2 {env : Env} {path : String} {x : Line}
    (h : x ∈ phase2Lines env) : x ∈ outLines env path := by
  unfold outLines analyze_pdf_fonts
  exact List.mem_cons_of_mem _ (List.mem_append_right _ (List.mem_cons_of_mem _ h))

/-- C5: every font-size line the run prints displays an ascending sequence,
and the sorted display is the same for any two collection orders of the
same sizes. -/
theorem C5_sizes_sorted (env : Env) (path : String) (l l1 l2 : List ℚ)
    (hl : Line.fontSizes l ∈ outLines env path) (hp : l1.Perm l2) :
    l.Sorted (fun a b => a ≤ b) ∧ sortedSizes l1 = sortedSizes l2 := by
  refine ⟨?_, sortedSizes_perm_eq hp⟩
  rcases mem_outLines_shape hl with h | h | h | h | h | h | h | h | h | h | h | h | h | h
  · simp at h
  · obtain ⟨e, h⟩ := h
    simp at h
  · obtain ⟨d, hd, h⟩ := h
    simp at h
  · simp at h
  · obtain ⟨k, v, h⟩ := h
    simp at h
  · obtain ⟨d, t, ts, hd, ht, h⟩ := h
    simp at h
  · simp at h
  · obtain ⟨e, h⟩ := h
    simp at h
  · simp at h
  · obtain ⟨doc, hdoc, h⟩ := h
    simp at h
  · obtain ⟨doc, p, ps, t, hdoc, hps, ht, hne, h⟩ := h
    rcases h with h | h <;> simp at h
  · obtain ⟨doc, p, ps, hdoc, hps, h⟩ := h
    rcases h with h | h
    · simp at h
    · injection h with h0
      rw [h0]
      exact sortedSizes_sorted _
  · simp at h
  · obtain ⟨i, t, f, s, h⟩ := h
    simp at h

/-- Witness for C5 at the concrete run, with a genuine transposition of
the collected sizes. -/
theorem C5_sizes_sorted_witness :
    ([12] : List ℚ).Sorted (fun a b => a ≤ b) ∧
    sortedSizes [12, 10] = sortedSizes [10, 12] := by
  have hout : outLines helloEnv "good-fonts.pdf" =
      [Line.analyzing "good-fonts.pdf", Line.numPages 1,
       Line.first500 "Hello World", Line.separator, Line.plumberOpened,
       Line.plumberNumPages 1, Line.textPreviewHeader, Line.textPreview "Hello World",
       Line.uniqueFonts ["Helvetica"], Line.fontSizes [12], Line.sampleHeader,
       Line.sampleChar 0 "H" "Helvetica" (toString (12 : ℚ))] := by
    norm_num [outLines, analyze_pdf_fonts, phase1Lines, phase2Lines, helloEnv, helloPyDoc,
      helloPlumberDoc, phase1Body, phase2Body, metaLines, textLines500, textLines300,
      firstPageLines, charLines, collectFonts, collectFontsAux, insertNew, pyRound1,
      roundHalfEven, sortedSizes, sampleLines, sampleLinesAux, helloChar, sizeStr, strTake]
    decide
  have hmem : Line.fontSizes [12] ∈ outLines helloEnv "good-fonts.pdf" := by
    rw [hout]
    simp
  exact C5_sizes_sorted helloEnv "good-fonts.pdf" [12] [12, 10] [10, 12] hmem
    (List.Perm.swap 10 12 [])

/-- C6: the collection pass depends only on the first 100 character records
(appending records beyond a 100-record page changes nothing), and the
sample display has at most 5 lines and depends only on the first 5
records. -/
theorem C6_sampling_bounds (chars extra : List CharRec) (l100 l5 : List CharRec)
    (h100 : l100.length = 100) (h5 : l5.length = 5) :
    collectFonts chars = collectFonts (chars.take 100) ∧
    (sampleLines chars).length ≤ 5 ∧
    collectFonts (l100 ++ extra) = collectFonts l100 ∧
    sampleLines (l5 ++ extra) = sampleLines l5 := by
  refine ⟨?_, ?_, ?_, ?_⟩
  · unfold collectFonts
    rw [List.take_take, min_self]
  · unfold sampleLines
    rw [length_sampleLinesAux, List.length_take]
    exact min_le_left 5 chars.length
  · unfold collectFonts
    rw [← h100, List.take_left, List.take_length]
  · unfold sampleLines
    rw [← h5, List.take_left, List.take_length]

/-- Witness for C6 on a 100-record page extended by extra records. -/
theorem C6_sampling_bounds_witness :
    collectFonts (List.replicate 100 helloChar) =
      collectFonts ((List.replicate 100 helloChar).take 100) ∧
    (sampleLines (List.replicate 100 helloChar)).length ≤ 5 ∧
    collectFonts (List.replicate 100 helloChar ++ [helloChar]) =
      collectFonts (List.replicate 100 helloChar) ∧
    sampleLines (List.replicate 5 helloChar ++ [helloChar]) =
      sampleLines (List.replicate 5 helloChar) :=
  C6_sampling_bounds (List.replicate 100 helloChar) [helloChar]
    (List.replicate 100 helloChar) (List.replicate 5 helloChar)
    (List.length_replicate 100 helloChar) (List.length_replicate 5 helloChar)

/-- C8: the record at index `i < 5` of the page is displayed with its
index, its `text` field (empty string when absent), its `fontname` field
(`N/A` when absent) and its `size` field (`N/A` when absent). -/
theorem C8_sample_render (chars : List CharRec) (i : Nat) (c : CharRec)
    (hc : chars[i]? = some c) (hi : i < 5) :
    Line.sampleChar i (Option.getD c.text "") (Option.getD c.fontname "N/A")
      (sizeStr c.size) ∈ sampleLines chars ∧
    (c.text = none → Option.getD c.text "" = "") ∧
    (c.fontname = none → Option.getD c.fontname "N/A" = "N/A") ∧
    (c.size = none → sizeStr c.size = "N/A") := by
  refine ⟨?_, ?_, ?_, ?_⟩
  · unfold sampleLines
    have h : (chars.take 5)[i]? = some c := by
      rw [List.getElem?_take_of_lt hi]
      exact hc
    have hm := sampleLinesAux_mem_of_getElem (chars.take 5) 0 i c h
    rwa [Nat.zero_add] at hm
  · intro h
    rw [h]
    rfl
  · intro h
    rw [h]
    rfl
  · intro h
    rw [h]
    rfl

/-- Witness for C8 at a record with all three fields absent, displayed with
the two `N/A` markers and the empty text. -/
theorem C8_sample_render_witness :
    Line.sampleChar 0 (Option.getD (none : Option String) "")
      (Option.getD (none : Option String) "N/A") (sizeStr none) ∈
      sampleLines [⟨none, none, none⟩] ∧
    ((⟨none, none, none⟩ : CharRec).text = none →
      Option.getD (none : Option String) "" = "") ∧
    ((⟨none, none, none⟩ : CharRec).fontname = none →
      Option.getD (none : Option String) "N/A" = "N/A") ∧
    ((⟨none, none, none⟩ : CharRec).size = none → sizeStr none = "N/A") :=
  C8_sample_render [⟨none, none, none⟩] 0 ⟨none, none, none⟩ rfl (by decide)

/-- C2: when page 1 yields no extractable text, phase 1 still prints the
`First 500 characters` block whose preview is the empty string followed by
the literal ellipsis, while phase 2 prints neither the text-preview header
nor any text-preview line (its text sub-step is skipped silently). -/
theorem C2_empty_first_page (env : Env) (path : String) (d : PyPdfDoc)
    (rest : List String) (doc : PlumberDoc) (p : PlumberPage) (ps : List PlumberPage)
    (h0 : env.openRb = Except.ok ())
    (h1 : env.parsePypdf = Except.ok d) (h2 : d.pages = "" :: rest)
    (h3 : env.openPlumber = Except.ok doc) (h4 : doc.pages = p :: ps)
    (h5 : p.textOpt = none ∨ p.textOpt = some "") :
    Line.first500 "" ∈ outLines env path ∧
    render (Line.first500 "") = "\nFirst 500 characters of text:\n" ++ ("" ++ "...") ∧
    Line.textPreviewHeader ∉ outLines env path ∧
    ∀ t, Line.textPreview t ∉ outLines env path := by
  have hkey : ∀ x : Line,
      (x = Line.textPreviewHeader ∨ ∃ t0, x = Line.textPreview t0) →
      x ∉ outLines env path := by
    intro x hx hmem
    rcases mem_outLines_shape hmem with h | h | h | h | h | h | h | h | h | h | h | h | h | h
    · rcases hx with rfl | ⟨t0, rfl⟩ <;> simp at h
    · obtain ⟨e, h⟩ := h
      rcases hx with rfl | ⟨t0, rfl⟩ <;> simp at h
    · obtain ⟨d2, hd2, h⟩ := h
      rcases hx with rfl | ⟨t0, rfl⟩ <;> simp at h
    · rcases hx with rfl | ⟨t0, rfl⟩ <;> simp at h
    · obtain ⟨k, v, h⟩ := h
      rcases hx with rfl | ⟨t0, rfl⟩ <;> simp at h
    · obtain ⟨d2, t2, ts2, hd2, hp2, h⟩ := h
      rcases hx with rfl | ⟨t0, rfl⟩ <;> simp at h
    · rcases hx with rfl | ⟨t0, rfl⟩ <;> simp at h
    · obtain ⟨e, h⟩ := h
      rcases hx with rfl | ⟨t0, rfl⟩ <;> simp at h
    · rcases hx with rfl | ⟨t0, rfl⟩ <;> simp at h
    · obtain ⟨doc2, hdoc2, h⟩ := h
      rcases hx with rfl | ⟨t0, rfl⟩ <;> simp at h
    · obtain ⟨doc2, p2, ps2, t2, hdoc2, hp2, ht2, hne2, h⟩ := h
      rw [h3] at hdoc2
      injection hdoc2 with hd
      subst hd
      rw [h4] at hp2
      injection hp2 with hpa hpb
      subst hpa
      rcases h5 with h5 | h5
      · rw [h5] at ht2
        cases ht2
      · rw [h5] at ht2
        injection ht2 with he
        exact hne2 he.symm
    · obtain ⟨doc2, p2, ps2, hdoc2, hp2, h⟩ := h
      rcases h with h | h <;> rcases hx with rfl | ⟨t0, rfl⟩ <;> simp at h
    · rcases hx with rfl | ⟨t0, rfl⟩ <;> simp at h
    · obtain ⟨i, t2, f2, s2, h⟩ := h
      rcases hx with rfl | ⟨t0, rfl⟩ <;> simp at h
  refine ⟨?_, rfl, hkey _ (Or.inl rfl), fun t => hkey _ (Or.inr ⟨t, rfl⟩)⟩
  apply mem_out_of_mem_phase1
  have hb : Line.first500 "" ∈ phase1Body d := by
    unfold phase1Body
    rw [h2]
    have hs : strTake "" 500 = "" := rfl
    simp [textLines500, hs]
  unfold phase1Lines
  rw [h0, h1]
  exact hb

/-- Witness for C2 at a run whose first page has no text in either
library. -/
theorem C2_empty_first_page_witness :
    Line.first500 "" ∈ outLines emptyTextEnv "good-fonts.pdf" ∧
    render (Line.first500 "") = "\nFirst 500 characters of text:\n" ++ ("" ++ "...") ∧
    Line.textPreviewHeader ∉ outLines emptyTextEnv "good-fonts.pdf" ∧
    ∀ t, Line.textPreview t ∉ outLines emptyTextEnv "good-fonts.pdf" :=
  C2_empty_first_page emptyTextEnv "good-fonts.pdf" ⟨[""], none⟩ []
    ⟨[⟨none, []⟩]⟩ ⟨none, []⟩ [] rfl rfl rfl rfl rfl (Or.inl rfl)

/-- C7: when page 1 exists, phase 1 prints its first 500 characters (all of
the text when it is shorter) followed by the literal ellipsis, and phase 2,
when extraction is non-empty, prints the first 300 characters followed by
the literal ellipsis. -/
theorem C7_text_previews (env : Env) (path : String) (d : PyPdfDoc) (t : String)
    (ts : List String) (doc : PlumberDoc) (p : PlumberPage) (ps : List PlumberPage)
    (u : String)
    (h0 : env.openRb = Except.ok ()) (h1 : env.parsePypdf = Except.ok d)
    (h2 : d.pages = t :: ts) (h3 : env.openPlumber = Except.ok doc)
    (h4 : doc.pages = p :: ps) (h5 : p.textOpt = some u) (h6 : u ≠ "") :
    Line.first500 (strTake t 500) ∈ outLines env path ∧
    render (Line.first500 (strTake t 500)) =
      "\nFirst 500 characters of text:\n" ++ (strTake t 500 ++ "...") ∧
    (t.length ≤ 500 → strTake t 500 = t) ∧
    Line.textPreview (strTake u 300) ∈ outLines env path ∧
    render (Line.textPreview (strTake u 300)) = strTake u 300 ++ "..." ∧
    (u.length ≤ 300 → strTake u 300 = u) := by
  refine ⟨?_, rfl, strTake_of_length_le t 500, ?_, rfl, strTake_of_length_le u 300⟩
  · apply mem_out_of_mem_phase1
    have hb : Line.first500 (strTake t 500) ∈ phase1Body d := by
      unfold phase1Body
      rw [h2]
      simp [textLines500]
    unfold phase1Lines
    rw [h0, h1]
    exact hb
  · apply mem_out_of_mem_phase2
    have hb : Line.textPreview (strTake u 300) ∈ phase2Body doc := by
      unfold phase2Body
      rw [h4]
      refine List.mem_cons_of_mem _ (List.mem_cons_of_mem _ ?_)
      rw [firstPageLines, h5, textLines300, if_neg h6]
      simp
    unfold phase2Lines
    rw [h3]
    exact hb

/-- Witness for C7 at the concrete single-page run. -/
theorem C7_text_previews_witness :
    Line.first500 (strTake "Hello World" 500) ∈ outLines helloEnv "good-fonts.pdf" ∧
    render (Line.first500 (strTake "Hello World" 500)) =
      "\nFirst 500 characters of text:\n" ++ (strTake "Hello World" 500 ++ "...") ∧
    ("Hello World".length ≤ 500 → strTake "Hello World" 500 = "Hello World") ∧
    Line.textPreview (strTake "Hello World" 300) ∈ outLines helloEnv "good-fonts.pdf" ∧
    render (Line.textPreview (strTake "Hello World" 300)) =
      strTake "Hello World" 300 ++ "..." ∧
    ("Hello World".length ≤ 300 → strTake "Hello World" 300 = "Hello World") :=
  C7_text_previews helloEnv "good-fonts.pdf" helloPyDoc "Hello World" []
    helloPlumberDoc ⟨some "Hello World", [helloChar]⟩ [] "Hello World"
    rfl rfl rfl rfl rfl rfl (by decide)

/-- C9: in a run in which both libraries successfully parse the same file,
the page count phase 1 prints and the page count phase 2 prints are both
the file's page count, and any two such printed counts agree. -/
theorem C9_page_counts_agree (f : PdfFile) (path : String) (n m : Nat)
    (hn : Line.numPages n ∈ outLines (envOfFile f) path)
    (hm : Line.plumberNumPages m ∈ outLines (envOfFile f) path) :
    n = m ∧ n = f.pages.length ∧
    Line.numPages f.pages.length ∈ outLines (envOfFile f) path ∧
    Line.plumberNumPages f.pages.length ∈ outLines (envOfFile f) path := by
  have key1 : n = f.pages.length := by
    rcases mem_outLines_shape hn with h | h | h | h | h | h | h | h | h | h | h | h | h | h
    · simp at h
    · obtain ⟨e, h⟩ := h
      simp at h
    · obtain ⟨d, hd, h⟩ := h
      rw [show (envOfFile f).parsePypdf = Except.ok (pypdfView f) from rfl] at hd
      injection hd with hd2
      subst hd2
      injection h with h0
      rw [h0]
      simp [pypdfView]
    · simp at h
    · obtain ⟨k, v, h⟩ := h
      simp at h
    · obtain ⟨d, t, ts, hd, ht, h⟩ := h
      simp at h
    · simp at h
    · obtain ⟨e, h⟩ := h
      simp at h
    · simp at h
    · obtain ⟨doc, hdoc, h⟩ := h
      simp at h
    · obtain ⟨doc, p, ps, t, hdoc, hps, ht, hne, h⟩ := h
      rcases h with h | h <;> simp at h
    · obtain ⟨doc, p, ps, hdoc, hps, h⟩ := h
      rcases h with h | h <;> simp at h
    · simp at h
    · obtain ⟨i, t, f2, s, h⟩ := h
      simp at h
  have key2 : m = f.pages.length := by
    rcases mem_outLines_shape hm with h | h | h | h | h | h | h | h | h | h | h | h | h | h
    · simp at h
    · obtain ⟨e, h⟩ := h
      simp at h
    · obtain ⟨d, hd, h⟩ := h
      simp at h
    · simp at h
    · obtain ⟨k, v, h⟩ := h
      simp at h
    · obtain ⟨d, t, ts, hd, ht, h⟩ := h
      simp at h
    · simp at h
    · obtain ⟨e, h⟩ := h
      simp at h
    · simp at h
    · obtain ⟨doc, hdoc, h⟩ := h
      rw [show (envOfFile f).openPlumber = Except.ok (plumberView f) from rfl] at hdoc
      injection hdoc with hd2
      subst hd2
      injection h with h0
      rw [h0]
      simp [plumberView]
    · obtain ⟨doc, p, ps, t, hdoc, hps, ht, hne, h⟩ := h
      rcases h with h | h <;> simp at h
    · obtain ⟨doc, p, ps, hdoc, hps, h⟩ := h
      rcases h with h | h <;> simp at h
    · simp at h
    · obtain ⟨i, t, f2, s, h⟩ := h
      simp at h
  refine ⟨key1.trans key2.symm, key1, ?_, ?_⟩
  · apply mem_out_of_mem_phase1
    have hb : Line.numPages f.pages.length ∈ phase1Body (pypdfView f) := by
      unfold phase1Body
      rw [show (pypdfView f).pages.length = f.pages.length by simp [pypdfView]]
      exact List.mem_cons_self _ _
    unfold phase1Lines envOfFile
    exact hb
  · apply mem_out_of_mem_phase2
    have hb : Line.plumberNumPages f.pages.length ∈ phase2Body (plumberView f) := by
      unfold phase2Body
      rw [show (plumberView f).pages.length = f.pages.length by simp [plumberView]]
      exact List.mem_cons_of_mem _ (List.mem_cons_self _ _)
    unfold phase2Lines envOfFile
    exact hb

/-- Witness for C9 at the concrete single-page file. -/
theorem C9_page_counts_agree_witness :
    (1 = 1 ∧ 1 = helloFile.pages.length ∧
     Line.numPages helloFile.pages.length ∈
       outLines (envOfFile helloFile) "good-fonts.pdf" ∧
     Line.plumberNumPages helloFile.pages.length ∈
       outLines (envOfFile helloFile) "good-fonts.pdf") := by
  have hn : Line.numPages 1 ∈ outLines (envOfFile helloFile) "good-fonts.pdf" := by
    apply mem_out_of_mem_phase1
    unfold phase1Lines envOfFile
    show Line.numPages 1 ∈ phase1Body (pypdfView helloFile)
    unfold phase1Body
    rw [show (pypdfView helloFile).pages.length = 1 from rfl]
    exact List.mem_cons_self _ _
  have hm : Line.plumberNumPages 1 ∈ outLines (envOfFile helloFile) "good-fonts.pdf" := by
    apply mem_out_of_mem_phase2
    unfold phase2Lines envOfFile
    show Line.plumberNumPages 1 ∈ phase2Body (plumberView helloFile)
    unfold phase2Body
    rw [show (plumberView helloFile).pages.length = 1 from rfl]
    exact List.mem_cons_of_mem _ (List.mem_cons_self _ _)
  exact C9_page_counts_agree helloFile "good-fonts.pdf" 1 1 hn hm
